import Mathlib

/-!
Shallow embedding of `fem/estimators.cpp` from the mfem repository:
the `ComputeEstimates` bodies of `ZienkiewiczZhuEstimator`,
`L2ZienkiewiczZhuEstimator`, `KellyErrorEstimator` and `LpErrorEstimator`.

External collaborators (mesh topology, finite-element spaces, quadrature
tables, flux integrators, geometric transformations, MPI) are modelled as
oracle data carried by structures; the control flow and arithmetic of the
source file itself is translated into executable Lean functions over those
oracles.  Real-valued `double` arithmetic is modelled over a commutative
ring / field parameter `R` (instantiated at `ℝ` where the code calls
`sqrt`, and at `ℤ` or `ℚ` for concrete evaluations).
-/

set_option maxHeartbeats 1000000

/-- Dot product of two coordinate vectors (mfem `Vector::operator*(Vector)`,
used for `val * normal` in the Kelly jump loops). -/
def dot {R : Type} [CommRing R] : List R → List R → R
  | a :: as, b :: bs => a * b + dot as bs
  | _, _ => 0

/-- Componentwise negation of a coordinate vector (mfem `Vector::Neg`). -/
def vneg {R : Type} [CommRing R] (v : List R) : List R :=
  v.map (fun x => -x)

/-- Componentwise difference of two coordinate vectors. -/
def vsub {R : Type} [CommRing R] : List R → List R → List R
  | a :: as, b :: bs => (a - b) :: vsub as bs
  | _, _ => []

/-- Per-face, per-quadrature-point oracle data consumed by the two jump
loops of `KellyErrorEstimator::ComputeEstimates` (estimators.cpp:129-194 for
a local face, estimators.cpp:232-296 for a shared face).  For quadrature
point `i` of the face's integration rule:
`val1 i`/`val2 i` are `flux.GetVectorValue(FT->Elem1No/Elem2No, ip, val)`
with `ip` obtained by `FT->Loc1.Transform(fip, ip)` resp. `FT->Loc2`;
`normal1 i` is the normal computed inside the side-1 loop and `normal2 i`
the one recomputed inside the side-2 loop, both BEFORE the side-2
`normal.Neg()` at estimators.cpp:191/293 (in the `Dimension() ==
SpaceDimension()` branch both loops run the identical
`FT->Face->SetIntPoint(&fip); CalcOrtho(FT->Face->Jacobian(), normal)`,
so there `normal1 = normal2`); `qweight i` is `fip.weight` and
`faceWeight i` is `FT->Face->Weight()` at that point. -/
structure FaceJumpData (R : Type) where
  val1 : Nat → List R
  val2 : Nat → List R
  normal1 : Nat → List R
  normal2 : Nat → List R
  qweight : Nat → R
  faceWeight : Nat → R

/-- Value of the accumulator `jumps(i)` after the side-1 loop
(estimators.cpp:160 `jumps(i) = val * normal * fip.weight *
FT->Face->Weight();`, identically estimators.cpp:263 in the shared pass). -/
def jumpsAfterSide1 {R : Type} [CommRing R] (d : FaceJumpData R) (i : Nat) : R :=
  dot (d.val1 i) (d.normal1 i) * d.qweight i * d.faceWeight i

/-- Value of the accumulator `jumps(i)` after the side-2 loop: the side-2
normal is negated (`normal.Neg()`, estimators.cpp:191/293) and the side-2
weighted normal flux is subtracted (`jumps(i) -= val * normal * fip.weight *
FT->Face->Weight();`, estimators.cpp:193/295). -/
def jumpsAfterSide2 {R : Type} [CommRing R] (d : FaceJumpData R) (i : Nat) : R :=
  jumpsAfterSide1 d i - dot (d.val2 i) (vneg (d.normal2 i)) * d.qweight i * d.faceWeight i

/-- Concrete face-point data: a one-component flux that is continuous
across the face (value `1` from both sides), unit face normal (identical in
both loops, as in the equal-dimension branch), unit quadrature weight and
unit face-Jacobian weight. -/
def c1cex : FaceJumpData ℤ :=
  { val1 := fun _ => [1]
    val2 := fun _ => [1]
    normal1 := fun _ => [1]
    normal2 := fun _ => [1]
    qweight := fun _ => 1
    faceWeight := fun _ => 1 }

/-- Oracle data of one MPI process inside
`KellyErrorEstimator::ComputeEstimates` (estimators.cpp:51-326).  Every
field is a query answered by an external collaborator (the `ParMesh`, the
solution `ParFiniteElementSpace`, the quadrature table, the
`compute_face_coefficient` / `compute_element_coefficient` helpers):
`ne` is `xfes->GetNE()`, `numFaces` is `pmesh->GetNumFaces()`,
`nSharedFaces` is `pmesh->GetNSharedFaces()`, `seq` is
`GetMesh()->GetSequence()`, `attrFilter` is the `attributes` array,
`attrElem e` is `xfes->GetAttribute(e)`, `fdofs e` lists the element's
flux dofs and `elFlux e d` the value `ComputeElementFlux` contributes at
flux dof `d`; for a local face `f`: `faceInterior f` is
`pmesh->FaceIsInterior(f)`, `elem1No`/`elem2No` are `FT->Elem1No` /
`FT->Elem2No`, `ncFace f` is the `NCFace` entry of `GetFaceInfos`,
`attr1`/`attr2` are `FT->Elem1->Attribute` / `FT->Elem2->Attribute`,
`faceGeom f` is `FT->FaceGeom`, `faceOrder f` is `xfes->GetFaceOrder(f)`,
`ruleDeg g k` / `ruleNip g k` are the polynomial degree and point count of
`int_rules.Get(g, k)` (modelled from the spec: `IntegrationRules::Get` is
external; the spec requires the returned rule to integrate degree `k`, so
`k ≤ ruleDeg g k` is carried as a hypothesis where needed), `faceData f`
is the per-point jump-loop data of face `f` and `hkFace f` is
`compute_face_coefficient(pmesh, f, false)`; the `s`-prefixed fields are
the analogous queries for shared face `sf` via
`GetSharedFaceTransformations(sf, true)`, with `sFaceOrder sf` the shared
face's own interpolation order (which the code never queries) and
`hkShared sf` `compute_face_coefficient(pmesh, sf, true)`; `elemCoef e` is
`compute_element_coefficient(pmesh, e)`. -/
structure KellyProc (R : Type) where
  ne : Nat
  numFaces : Nat
  nSharedFaces : Nat
  seq : Nat
  attrFilter : List Int
  attrElem : Nat → Int
  fdofs : Nat → List Nat
  elFlux : Nat → Nat → R
  faceInterior : Nat → Bool
  elem1No : Nat → Nat
  elem2No : Nat → Int
  ncFace : Nat → Int
  attr1 : Nat → Int
  attr2 : Nat → Int
  faceGeom : Nat → Nat
  faceOrder : Nat → Nat
  ruleDeg : Nat → Nat → Nat
  ruleNip : Nat → Nat → Nat
  faceData : Nat → FaceJumpData R
  hkFace : Nat → R
  sElem1No : Nat → Nat
  sAttr1 : Nat → Int
  sAttr2 : Nat → Int
  sFaceGeom : Nat → Nat
  sFaceOrder : Nat → Nat
  sFaceData : Nat → FaceJumpData R
  hkShared : Nat → R
  elemCoef : Nat → R

/-- All-default instance of `FaceJumpData`, used to build small concrete
test meshes. -/
def constFaceJumpData (R : Type) [CommRing R] : FaceJumpData R :=
  { val1 := fun _ => []
    val2 := fun _ => []
    normal1 := fun _ => []
    normal2 := fun _ => []
    qweight := fun _ => 0
    faceWeight := fun _ => 0 }

/-- All-default instance of `KellyProc` (no elements, no faces, empty
attribute filter), used as a base for small concrete test meshes. -/
def constKellyProc (R : Type) [CommRing R] : KellyProc R :=
  { ne := 0
    numFaces := 0
    nSharedFaces := 0
    seq := 0
    attrFilter := []
    attrElem := fun _ => 0
    fdofs := fun _ => []
    elFlux := fun _ _ => 0
    faceInterior := fun _ => false
    elem1No := fun _ => 0
    elem2No := fun _ => -1
    ncFace := fun _ => -1
    attr1 := fun _ => 0
    attr2 := fun _ => 0
    faceGeom := fun _ => 0
    faceOrder := fun _ => 0
    ruleDeg := fun _ k => k
    ruleNip := fun _ _ => 0
    faceData := fun _ => constFaceJumpData R
    hkFace := fun _ => 0
    sElem1No := fun _ => 0
    sAttr1 := fun _ => 0
    sAttr2 := fun _ => 0
    sFaceGeom := fun _ => 0
    sFaceOrder := fun _ => 0
    sFaceData := fun _ => constFaceJumpData R
    hkShared := fun _ => 0
    elemCoef := fun _ => 0 }

/-- Face-ownership guard of the local face loop (estimators.cpp:108-120):
the face is handled when it is interior and either it is conforming
(`NCFace == -1`) with `Elem1No < Elem2No`, or it is a non-conforming slave
face (`NCFace >= 0`); both disjuncts require `Elem2No >= 0`, mirroring
`isConforming` / `isNCSlave`. -/
def kellyLocalFaceSelected {R : Type} (m : KellyProc R) (f : Nat) : Bool :=
  m.faceInterior f &&
    ((decide ((m.elem1No f : Int) < m.elem2No f) &&
        (decide (0 ≤ m.elem2No f) && decide (m.ncFace f = -1))) ||
      (decide (0 ≤ m.elem2No f) && decide (0 ≤ m.ncFace f)))

/-- Attribute-filter rejection for a local face (estimators.cpp:122-127):
skip when the filter is non-empty and either adjacent element's attribute
is missing from it. -/
def attrExcludedLocal {R : Type} (m : KellyProc R) (f : Nat) : Bool :=
  (!m.attrFilter.isEmpty) &&
    (!(m.attrFilter.contains (m.attr1 f)) || !(m.attrFilter.contains (m.attr2 f)))

/-- Attribute-filter rejection for a shared face (estimators.cpp:221-226). -/
def attrExcludedShared {R : Type} (m : KellyProc R) (sf : Nat) : Bool :=
  (!m.attrFilter.isEmpty) &&
    (!(m.attrFilter.contains (m.sAttr1 sf)) || !(m.attrFilter.contains (m.sAttr2 sf)))

/-- Number of quadrature points of the rule fetched for local face `f`
(estimators.cpp:104-106): `int_rules.Get(FT->FaceGeom, 2 *
xfes->GetFaceOrder(f)).GetNPoints()`. -/
def nipLocal {R : Type} (m : KellyProc R) (f : Nat) : Nat :=
  m.ruleNip (m.faceGeom f) (2 * m.faceOrder f)

/-- Number of quadrature points of the rule fetched for shared face `sf`
(estimators.cpp:228-230): note the order argument is `2 *
xfes->GetFaceOrder(0)` — face `0`, not the shared face itself. -/
def nipShared {R : Type} (m : KellyProc R) (sf : Nat) : Nat :=
  m.ruleNip (m.sFaceGeom sf) (2 * m.faceOrder 0)

/-- Polynomial degree of the quadrature rule used on local face `f`. -/
def localRuleDeg {R : Type} (m : KellyProc R) (f : Nat) : Nat :=
  m.ruleDeg (m.faceGeom f) (2 * m.faceOrder f)

/-- Polynomial degree of the quadrature rule used on shared face `sf`
(order argument taken from local face `0`, estimators.cpp:229). -/
def sharedRuleDeg {R : Type} (m : KellyProc R) (sf : Nat) : Nat :=
  m.ruleDeg (m.sFaceGeom sf) (2 * m.faceOrder 0)

/-- Squares of the per-point accumulators summed over the rule's points
(estimators.cpp:197-200 `jumps(i) *= jumps(i)` followed by
estimators.cpp:202/304 `jumps.Sum()`). -/
def sumSqJumps {R : Type} [CommRing R] (d : FaceJumpData R) (nip : Nat) : R :=
  ((List.range nip).map (fun i => jumpsAfterSide2 d i * jumpsAfterSide2 d i)).sum

/-- Scalar contribution of a qualifying local face (estimators.cpp:201-202):
`h_k_face * jumps.Sum()` with `h_k_face = compute_face_coefficient(pmesh,
f, false)`. -/
def localJumpIntegral {R : Type} [CommRing R] (m : KellyProc R) (f : Nat) : R :=
  m.hkFace f * sumSqJumps (m.faceData f) (nipLocal m f)

/-- Scalar contribution of a qualifying shared face (estimators.cpp:303-304). -/
def sharedJumpIntegral {R : Type} [CommRing R] (m : KellyProc R) (sf : Nat) : R :=
  m.hkShared sf * sumSqJumps (m.sFaceData sf) (nipShared m sf)

/-- One iteration of the local face loop (estimators.cpp:100-212) acting on
the running error sums: when the ownership guard and the attribute filter
both pass, `jump_integral` is added to `error_estimates(FT->Elem1No)` and
to `error_estimates(FT->Elem2No)` (estimators.cpp:208-209); otherwise the
sums are untouched. -/
def localFaceStep {R : Type} [CommRing R] (m : KellyProc R) (est : Nat → R) (f : Nat) :
    Nat → R :=
  if kellyLocalFaceSelected m f && !(attrExcludedLocal m f) then
    fun e =>
      est e + (if e = m.elem1No f then localJumpIntegral m f else 0)
        + (if (e : Int) = m.elem2No f then localJumpIntegral m f else 0)
  else est

/-- Running error sums after the local face loop, starting from the
zero-initialised vector (estimators.cpp:70-71). -/
def kellyAfterLocal {R : Type} [CommRing R] (m : KellyProc R) : Nat → R :=
  (List.range m.numFaces).foldl (localFaceStep m) (fun _ => 0)

/-- One iteration of the shared face loop (estimators.cpp:218-310): when
the attribute filter passes, `jump_integral` is added to
`error_estimates(FT->Elem1No)` only — the `Elem2No` update is skipped
because the remote process recomputes it (estimators.cpp:306-309). -/
def sharedFaceStep {R : Type} [CommRing R] (m : KellyProc R) (est : Nat → R) (sf : Nat) :
    Nat → R :=
  if !(attrExcludedShared m sf) then
    fun e => est e + (if e = m.sElem1No sf then sharedJumpIntegral m sf else 0)
  else est

/-- Running error sums after both face loops. -/
def kellyAfterShared {R : Type} [CommRing R] (m : KellyProc R) : Nat → R :=
  (List.range m.nSharedFaces).foldl (sharedFaceStep m) (kellyAfterLocal m)

/-- One iteration of the flux-recovery loop (estimators.cpp:79-96) acting
on the discontinuous flux field (indexed by flux dof): an element whose
attribute is rejected by a non-empty filter is skipped (`continue`,
estimators.cpp:82-85); otherwise `flux.AddElementVector(fdofs, el_f)` adds
the element's computed flux at its flux dofs (estimators.cpp:94-95). -/
def fluxStep {R : Type} [CommRing R] (m : KellyProc R) (flx : Nat → R) (e : Nat) :
    Nat → R :=
  if (!m.attrFilter.isEmpty) && !(m.attrFilter.contains (m.attrElem e)) then flx
  else fun d => flx d + (if (m.fdofs e).contains d then m.elFlux e d else 0)

/-- Discontinuous flux field after the flux-recovery loop, starting from
the zero-initialised field (estimators.cpp:74-75 `flux = 0.0`). -/
def fluxRecovery {R : Type} [CommRing R] (m : KellyProc R) : Nat → R :=
  (List.range m.ne).foldl (fluxStep m) (fun _ => 0)

/-- Finalised per-element error estimate (estimators.cpp:313-318):
`error_estimates(e) = sqrt(factor * error_estimates(e))` with `factor =
compute_element_coefficient(pmesh, e)`; `sqrt` is the C library square
root, modelled by `Real.sqrt`. -/
noncomputable def kellyFinalize (m : KellyProc ℝ) (e : Nat) : ℝ :=
  Real.sqrt (m.elemCoef e * kellyAfterShared m e)

/-- The estimator's `error_estimates` vector at the end of
`KellyErrorEstimator::ComputeEstimates`: sized to `xfes->GetNE()`
(estimators.cpp:70) and holding the finalised per-element values. -/
noncomputable def kellyEstimates (m : KellyProc ℝ) : List ℝ :=
  (List.range m.ne).map (kellyFinalize m)

/-- The process-local scalar `error_estimates.Sum()` (estimators.cpp:323). -/
noncomputable def kellyLocalErrorSum (m : KellyProc ℝ) : ℝ :=
  (kellyEstimates m).sum

/-- The additive `MPI_Allreduce` over all processes (estimators.cpp:324-325):
every process contributes its plain sum of finalised per-element values and
the global scalar is the sum over processes. -/
noncomputable def kellyTotalError (ps : List (KellyProc ℝ)) : ℝ :=
  (ps.map kellyLocalErrorSum).sum

/-- Persistent state of an estimator of the family: the `error_estimates`
vector, the cached `current_sequence` and the `total_error` scalar. -/
structure EstState (R : Type) where
  errorEstimates : List R
  currentSequence : Nat
  totalError : R

/-- State of a `FiniteElementSpace` as far as this file observes it: the
mesh sequence number the space is currently built for. -/
structure FluxSpaceState where
  seq : Nat
deriving DecidableEq

/-- Modelled from the spec: `FiniteElementSpace::Update(false)`
(estimators.cpp:19/38-39/64) is external; per the spec's staleness
contract it brings the space in line with the mesh's current sequence
number (a mutation whenever the space was stale). -/
def fesUpdate (_fs : FluxSpaceState) (meshSeq : Nat) : FluxSpaceState :=
  { seq := meshSeq }

/-- The whole of `KellyErrorEstimator::ComputeEstimates`
(estimators.cpp:51-326) at the state level: first `flux_space->Update(false)`
(estimators.cpp:64), then the `MFEM_ASSERT(xfes->GetVDim() == 1, ...)`
scalar-only check (estimators.cpp:67, modelled as a failing check per the
spec's fail-fast error taxonomy); only past the check are the error
estimates resized, filled by the two face loops, finalised, and the
sequence cached (estimators.cpp:320) and the global reduction performed.
`peers` stands for the sum contributed by the other MPI processes to the
all-reduce. -/
noncomputable def kellyComputeFull (m : KellyProc ℝ) (vdim : Nat) (fs : FluxSpaceState)
    (peers : ℝ) : FluxSpaceState × Except String (EstState ℝ) :=
  let fsu := fesUpdate fs m.seq
  if vdim = 1 then
    (fsu, Except.ok
      { errorEstimates := kellyEstimates m
        currentSequence := m.seq
        totalError := kellyLocalErrorSum m + peers })
  else
    (fsu, Except.error ("Estimation for vector-valued problems not implemented yet."))

/-- Modelled from the spec: `ZienkiewiczZhuEstimator::ComputeEstimates`
(estimators.cpp:17-31) delegates to the external `ZZErrorEstimator`
routine, which per the spec fills the per-element vector with one entry
per local element (`zzFill`) and returns the total error (`zzTotal`);
the function then caches the mesh sequence (estimators.cpp:30). -/
def zzCompute {R : Type} (meshSeq ne : Nat) (zzFill : Nat → R) (zzTotal : R) :
    EstState R :=
  { errorEstimates := (List.range ne).map zzFill
    currentSequence := meshSeq
    totalError := zzTotal }

/-- The hard-coded solver tolerance of
`L2ZienkiewiczZhuEstimator::ComputeEstimates` (estimators.cpp:42
`const double solver_tol = 1e-12;`). -/
def l2zzSolverTol (R : Type) [DivisionRing R] : R :=
  1 / 10 ^ 12

/-- The hard-coded solver iteration cap (estimators.cpp:43
`const int solver_max_it = 200;`). -/
def l2zzSolverMaxIt : Nat := 200

/-- Modelled from the spec: `L2ZienkiewiczZhuEstimator::ComputeEstimates`
(estimators.cpp:36-49) delegates to the external `L2ZZErrorEstimator`,
invoked with `(local_norm_p, solver_tol, solver_max_it)`; per the spec it
fills one entry per local element and returns the total error.  The
sequence is then cached (estimators.cpp:48).  `solve p tol maxIt` returns
`(total_error, per-element fill)`. -/
def l2zzCompute {R : Type} [DivisionRing R] (meshSeq ne : Nat) (normP : Int)
    (solve : Int → R → Nat → R × (Nat → R)) : EstState R :=
  let res := solve normP (l2zzSolverTol R) l2zzSolverMaxIt
  { errorEstimates := (List.range ne).map res.2
    currentSequence := meshSeq
    totalError := res.1 }

/-- The whole of `LpErrorEstimator::ComputeEstimates`
(estimators.cpp:330-345): `MFEM_VERIFY(coef != NULL || vcoef != NULL, ...)`
fails before the `error_estimates.SetSize` and before any write; otherwise
the vector is sized to the mesh's element count and filled by the external
`ComputeElementLpErrors` (modelled from the spec as one entry per local
element: `fillS` for the scalar-coefficient branch, `fillV` for the
vector-coefficient branch), and the sequence is cached
(estimators.cpp:344).  `total_error` is not assigned by this method. -/
def lpComputeE {R C V : Type} (coef : Option C) (vcoef : Option V) (meshSeq ne : Nat)
    (fillS fillV : Nat → R) (old : EstState R) : Except String (EstState R) :=
  if coef.isNone && vcoef.isNone then
    Except.error ("LpErrorEstimator has no coefficient!  Call SetCoef first.")
  else
    Except.ok
      { errorEstimates := (List.range ne).map (if coef.isSome then fillS else fillV)
        currentSequence := meshSeq
        totalError := old.totalError }

/-- One `IsoparametricTransformation` as observed by the embedded-mesh
(`Dimension() < SpaceDimension()`) normal computation: a current
integration point register (set by `SetIntPoint`; `none` when whatever was
set before the loop is unknown, `some i` when quadrature point `i` of the
face rule is set) and the Jacobian matrix the transform reports for a
given register value. -/
structure RefTransf (R : Type) where
  currentIP : Option Nat
  jacobianAt : Option Nat → List (List R)

/-- The element transformation data used by the adjugate-Jacobian pullback
(estimators.cpp:156-158): `e1.AdjugateJacobian()` and `e1.Weight()`. -/
structure ElemTransf (R : Type) where
  adjJacobian : List (List R)
  weight : R

/-- The parts of a `FaceElementTransformations` object the embedded-mesh
branches touch: the face-to-element reference transforms `Loc1.Transf` /
`Loc2.Transf` and the two element transformations. -/
structure FaceElemTransf (R : Type) where
  loc1 : RefTransf R
  loc2 : RefTransf R
  elem1 : ElemTransf R
  elem2 : ElemTransf R

/-- Column `j` of a row-major matrix. -/
def getColumn {R : Type} [CommRing R] (A : List (List R)) (j : Nat) : List R :=
  A.map (fun row => row.getD j 0)

/-- Matrix-transpose-vector product `A^T x`
(mfem `DenseMatrix::MultTranspose`): component `j` of the result is the
dot product of column `j` with `x`. -/
def multTranspose {R : Type} [CommRing R] (A : List (List R)) (v : List R) : List R :=
  (List.range (A.headD []).length).map (fun j => dot (getColumn A j) v)

/-- The adjugate-Jacobian pullback of a reference-space normal through an
element transformation (estimators.cpp:155-158): `CalcOrtho(jac,
ref_normal); e.AdjugateJacobian().MultTranspose(ref_normal, normal);
normal /= e.Weight()`.  `CalcOrtho` is external dense-matrix code, passed
in as an oracle. -/
def adjPullbackNormal {R : Type} [Field R] (calcOrtho : List (List R) → List R)
    (e : ElemTransf R) (jac : List (List R)) : List R :=
  (multTranspose e.adjJacobian (calcOrtho jac)).map (fun x => x / e.weight)

/-- Side-1 normal of the embedded-mesh branch, local and shared passes
alike (estimators.cpp:153-158 and 255-260): `FT->Loc1.Transf.SetIntPoint
(&fip)` then the pullback of `CalcOrtho(FT->Loc1.Transf.Jacobian(), ...)`
through element 1's transformation. -/
def embSide1Normal {R : Type} [Field R] (calcOrtho : List (List R) → List R)
    (ft : FaceElemTransf R) (fip : Nat) : List R :=
  adjPullbackNormal calcOrtho ft.elem1 (ft.loc1.jacobianAt (some fip))

/-- Side-2 normal of the embedded-mesh branch in the LOCAL pass
(estimators.cpp:184-191): again `FT->Loc1.Transf.SetIntPoint(&fip)` and the
pullback through element 1 — element 2's transforms are never consulted —
followed by `normal.Neg()`. -/
def embLocalSide2Normal {R : Type} [Field R] (calcOrtho : List (List R) → List R)
    (ft : FaceElemTransf R) (fip : Nat) : List R :=
  vneg (adjPullbackNormal calcOrtho ft.elem1 (ft.loc1.jacobianAt (some fip)))

/-- Side-2 normal of the embedded-mesh branch in the SHARED pass
(estimators.cpp:287-293): identical to the local pass except that no
`SetIntPoint` call precedes `CalcOrtho(FT->Loc1.Transf.Jacobian(), ...)`,
so the Jacobian is reported for whatever integration point is still set on
`Loc1.Transf` from before. -/
def embSharedSide2Normal {R : Type} [Field R] (calcOrtho : List (List R) → List R)
    (ft : FaceElemTransf R) (_fip : Nat) : List R :=
  vneg (adjPullbackNormal calcOrtho ft.elem1 (ft.loc1.jacobianAt ft.loc1.currentIP))

/-- Concrete embedded-mesh transformation state over `ℚ` in which the
stale integration point register is observable: the `Loc1` reference
transform still holds point `1` and reports Jacobian `[[2]]` there but
`[[1]]` at point `0`. -/
def staleFT : FaceElemTransf ℚ :=
  { loc1 :=
      { currentIP := some 1
        jacobianAt := fun o => if o = some 1 then [[2]] else [[1]] }
    loc2 := { currentIP := none, jacobianAt := fun _ => [[1]] }
    elem1 := { adjJacobian := [[1]], weight := 1 }
    elem2 := { adjJacobian := [[3]], weight := 5 } }

/-- Concrete local-mesh data used to exercise the face-selection guard: a
single interior conforming face between elements `0` and `1`. -/
def c2wm : KellyProc ℤ :=
  { constKellyProc ℤ with
      ne := 2
      numFaces := 1
      faceInterior := fun _ => true
      elem1No := fun _ => 0
      elem2No := fun _ => 1
      ncFace := fun _ => -1 }

/-- Concrete process data with one shared face whose own interpolation
order (`2`) exceeds that of local face `0` (order `1`), with a quadrature
table returning a rule of exactly the requested degree and an empty
attribute filter. -/
def c6cex : KellyProc ℤ :=
  { constKellyProc ℤ with
      nSharedFaces := 1
      faceOrder := fun _ => 1
      sFaceOrder := fun _ => 2 }

/-- Concrete process data: one qualifying interior conforming local face
between elements `0` and `1`, and one shared face owned locally by
element `0`; empty attribute filter. -/
def c3wm : KellyProc ℤ :=
  { constKellyProc ℤ with
      ne := 2
      numFaces := 1
      nSharedFaces := 1
      faceInterior := fun _ => true
      elem1No := fun _ => 0
      elem2No := fun _ => 1
      ncFace := fun _ => -1 }

/-- Concrete process data with attribute filter `{5}`: element `0` has
attribute `1` (excluded), element `1` attribute `5` (included); flux dof
lists are disjoint (`fdofs x = [x]`); every face and shared face has one
adjacent attribute excluded. -/
def c7wm : KellyProc ℤ :=
  { constKellyProc ℤ with
      ne := 2
      numFaces := 1
      nSharedFaces := 1
      attrFilter := [5]
      attrElem := fun x => if x = 0 then 1 else 5
      fdofs := fun x => [x]
      elFlux := fun _ _ => 7
      attr1 := fun _ => 1
      attr2 := fun _ => 5
      sAttr1 := fun _ => 1
      sAttr2 := fun _ => 5 }

theorem dot_vneg {R : Type} [CommRing R] (v : List R) :
    ∀ n : List R, dot v (vneg n) = - dot v n := by
  induction v with
  | nil => intro n; cases n <;> simp [dot, vneg]
  | cons a as ih =>
    intro n
    cases n with
    | nil => simp [dot, vneg]
    | cons b bs =>
      have h : dot as (List.map (fun x => -x) bs) = - dot as bs := ih bs
      simp [dot, vneg, h]
      ring

/-- The side-2 subtraction of a negated-normal flux value double-negates:
the accumulator ends up holding the SUM of the two one-sided weighted
normal-flux values, not their difference. -/
theorem jumpsAfterSide2_eq_sum {R : Type} [CommRing R] (d : FaceJumpData R) (i : Nat) :
    jumpsAfterSide2 d i =
      (dot (d.val1 i) (d.normal1 i) + dot (d.val2 i) (d.normal2 i))
        * d.qweight i * d.faceWeight i := by
  simp [jumpsAfterSide2, jumpsAfterSide1, dot_vneg]
  ring

/-- C1: at a quadrature point where the flux is continuous across the face
(both one-sided values `1`, unit normal and weights), the code's per-point
accumulator after the side-2 loop is `2` — the sum of the two one-sided
normal-flux values — whereas the flux jump claimed by the spec, `(flux from
side 1 minus flux from side 2) · normal × weights`, is `0` there.  The
`normal.Neg()` at estimators.cpp:191/293 combined with the `-=` at
estimators.cpp:193/295 double-negates the side-2 term. -/
theorem kelly_c1_side2_accumulator_not_jump :
    jumpsAfterSide2 c1cex 0 = 2 ∧
      dot (vsub (c1cex.val1 0) (c1cex.val2 0)) (c1cex.normal1 0)
        * c1cex.qweight 0 * c1cex.faceWeight 0 = 0 := by
  decide

/-- C2: characterisation of the local face loop's selection guard
(estimators.cpp:108-120).  Under the mesh invariant that
`pmesh->FaceIsInterior(f)` holds exactly when the face has a second
adjacent element (`FT->Elem2No >= 0`): a conforming interior face
(`NCFace == -1`) is selected iff `Elem1No < Elem2No`; a non-conforming
slave interior face (`NCFace >= 0`) is always selected; a boundary face
(no second adjacent element) is never selected; and every selected face is
interior and, when conforming, has `Elem1No < Elem2No`. -/
theorem kelly_c2_face_selection {R : Type} (m : KellyProc R) (f : Nat)
    (hInt : m.faceInterior f = decide (0 ≤ m.elem2No f)) :
    ((0 ≤ m.elem2No f ∧ m.ncFace f = -1) →
        (kellyLocalFaceSelected m f = true ↔ (m.elem1No f : Int) < m.elem2No f))
  ∧ ((0 ≤ m.elem2No f ∧ 0 ≤ m.ncFace f) → kellyLocalFaceSelected m f = true)
  ∧ (m.elem2No f < 0 → kellyLocalFaceSelected m f ≠ true)
  ∧ (kellyLocalFaceSelected m f = true →
        0 ≤ m.elem2No f ∧ (m.ncFace f = -1 → (m.elem1No f : Int) < m.elem2No f)) := by
  simp only [kellyLocalFaceSelected, hInt, Bool.and_eq_true, Bool.or_eq_true,
    decide_eq_true_eq, ne_eq]
  omega

/-- C2 witness: the guard characterisation applied to a concrete
single-face mesh. -/
theorem kelly_c2_face_selection_witness :
    c2wm.faceInterior 0 = decide (0 ≤ c2wm.elem2No 0)
  ∧ (((0 ≤ c2wm.elem2No 0 ∧ c2wm.ncFace 0 = -1) →
        (kellyLocalFaceSelected c2wm 0 = true ↔ (c2wm.elem1No 0 : Int) < c2wm.elem2No 0))
    ∧ ((0 ≤ c2wm.elem2No 0 ∧ 0 ≤ c2wm.ncFace 0) → kellyLocalFaceSelected c2wm 0 = true)
    ∧ (c2wm.elem2No 0 < 0 → kellyLocalFaceSelected c2wm 0 ≠ true)
    ∧ (kellyLocalFaceSelected c2wm 0 = true →
        0 ≤ c2wm.elem2No 0 ∧ (c2wm.ncFace 0 = -1 → (c2wm.elem1No 0 : Int) < c2wm.elem2No 0))) :=
  ⟨by decide, kelly_c2_face_selection c2wm 0 (by decide)⟩

/-- C9: in the embedded-mesh (`Dimension() < SpaceDimension()`) branch the
side-2 normal is, in the local pass, exactly the negation of the side-1
pullback normal computed through element 1's transforms at the current
quadrature point (estimators.cpp:184-191); in the shared pass it is the
negation of the pullback of `Loc1.Transf`'s Jacobian taken at whatever
integration point was last set on `Loc1.Transf` — no `SetIntPoint`
precedes it (estimators.cpp:287-293) — so it is independent of the
quadrature-point index; in both passes the result is unchanged under
arbitrary replacement of element 2's transforms; and on a concrete state
whose register still holds the previous point, the shared-pass side-2
normal differs from the negated fresh side-1 normal. -/
theorem kelly_c9_embedded_side2_normal {R : Type} [Field R] :
    (∀ (calcOrtho : List (List R) → List R) (ft : FaceElemTransf R) (fip : Nat),
        embLocalSide2Normal calcOrtho ft fip = vneg (embSide1Normal calcOrtho ft fip))
  ∧ (∀ (calcOrtho : List (List R) → List R) (ft : FaceElemTransf R) (fip : Nat),
        embSharedSide2Normal calcOrtho ft fip
          = vneg (adjPullbackNormal calcOrtho ft.elem1
              (ft.loc1.jacobianAt ft.loc1.currentIP)))
  ∧ (∀ (calcOrtho : List (List R) → List R) (ft : FaceElemTransf R) (fip : Nat)
        (l2 : RefTransf R) (e2 : ElemTransf R),
        embLocalSide2Normal calcOrtho { ft with loc2 := l2, elem2 := e2 } fip
            = embLocalSide2Normal calcOrtho ft fip
          ∧ embSharedSide2Normal calcOrtho { ft with loc2 := l2, elem2 := e2 } fip
            = embSharedSide2Normal calcOrtho ft fip)
  ∧ (∀ (calcOrtho : List (List R) → List R) (ft : FaceElemTransf R) (fip fip2 : Nat),
        embSharedSide2Normal calcOrtho ft fip = embSharedSide2Normal calcOrtho ft fip2)
  ∧ embSharedSide2Normal (fun j => j.flatten) staleFT 0
      ≠ vneg (embSide1Normal (fun j => j.flatten) staleFT 0) := by
  refine ⟨fun _ _ _ => rfl, fun _ _ _ => rfl, fun _ _ _ _ _ => ⟨rfl, rfl⟩,
    fun _ _ _ _ => rfl, ?_⟩
  have h1 : embSharedSide2Normal (fun j => j.flatten) staleFT 0 = [-(2 : ℚ)] := by
    norm_num [embSharedSide2Normal, adjPullbackNormal, multTranspose, getColumn, staleFT,
      vneg, dot, List.range_succ, List.range_zero]
  have h2 : vneg (embSide1Normal (fun j => j.flatten) staleFT 0) = [-(1 : ℚ)] := by
    norm_num [embSide1Normal, adjPullbackNormal, multTranspose, getColumn, staleFT,
      vneg, dot, List.range_succ, List.range_zero]
  rw [h1, h2]
  norm_num

/-- C10: `L2ZienkiewiczZhuEstimator::ComputeEstimates` always hands its
external solve the hard-coded tolerance `1e-12` and iteration cap `200`
(estimators.cpp:41-46); the compute function takes no tolerance or
iteration input from any estimator state, so no public interface can vary
them between calls. -/
theorem l2zz_c10_solver_constants {R : Type} [DivisionRing R] :
    (∀ (meshSeq ne : Nat) (normP : Int) (solve : Int → R → Nat → R × (Nat → R)),
        l2zzCompute meshSeq ne normP solve =
          { errorEstimates := (List.range ne).map (solve normP (1 / 10 ^ 12) 200).2
            currentSequence := meshSeq
            totalError := (solve normP (1 / 10 ^ 12) 200).1 })
  ∧ l2zzSolverTol R = 1 / 10 ^ 12 ∧ l2zzSolverMaxIt = 200 :=
  ⟨fun _ _ _ _ => rfl, rfl, rfl⟩

/-- C4: after `KellyErrorEstimator::ComputeEstimates`, every element's
final estimate is `sqrt(compute_element_coefficient(pmesh, e) *
accumulated sum)` (estimators.cpp:313-318), hence non-negative; the square
root is applied element-wise before the reduction, and the global error is
the additive all-reduce over processes of each process's plain sum of its
finalised per-element values (estimators.cpp:322-325). -/
theorem kelly_c4_finalize_nonneg_reduction (m : KellyProc ℝ) (e : Nat)
    (ps : List (KellyProc ℝ)) :
    kellyFinalize m e = Real.sqrt (m.elemCoef e * kellyAfterShared m e)
  ∧ 0 ≤ kellyFinalize m e
  ∧ kellyEstimates m = (List.range m.ne).map (kellyFinalize m)
  ∧ kellyTotalError ps
      = (ps.map (fun p => ((List.range p.ne).map
          (fun i => Real.sqrt (p.elemCoef i * kellyAfterShared p i))).sum)).sum :=
  ⟨rfl, Real.sqrt_nonneg _, rfl, rfl⟩

/-- C5: for every estimator of the family (ZZ, L2ZZ, Kelly, Lp), a
successful `ComputeEstimates()` leaves the cached sequence number equal to
the mesh's current sequence number and the error-estimate vector sized to
the current local element count. -/
theorem estimators_c5_cache_contract (meshSeq ne : Nat) (zzFill : Nat → ℝ) (zzTotal : ℝ)
    (normP : Int) (solve : Int → ℝ → Nat → ℝ × (Nat → ℝ)) (m : KellyProc ℝ)
    (fs : FluxSpaceState) (peers : ℝ) {C V : Type} (c : C) (v : V) (vc : Option V)
    (fillS fillV : Nat → ℝ) (old : EstState ℝ) :
    (zzCompute meshSeq ne zzFill zzTotal).currentSequence = meshSeq
  ∧ (zzCompute meshSeq ne zzFill zzTotal).errorEstimates.length = ne
  ∧ (l2zzCompute meshSeq ne normP solve).currentSequence = meshSeq
  ∧ (l2zzCompute meshSeq ne normP solve).errorEstimates.length = ne
  ∧ (kellyComputeFull m 1 fs peers).2 =
      Except.ok
        { errorEstimates := kellyEstimates m
          currentSequence := m.seq
          totalError := kellyLocalErrorSum m + peers }
  ∧ (kellyEstimates m).length = m.ne
  ∧ lpComputeE (some c) vc meshSeq ne fillS fillV old =
      Except.ok
        { errorEstimates := (List.range ne).map fillS
          currentSequence := meshSeq
          totalError := old.totalError }
  ∧ lpComputeE (none : Option C) (some v) meshSeq ne fillS fillV old =
      Except.ok
        { errorEstimates := (List.range ne).map fillV
          currentSequence := meshSeq
          totalError := old.totalError }
  ∧ ((List.range ne).map fillS).length = ne
  ∧ ((List.range ne).map fillV).length = ne := by
  refine ⟨rfl, by simp [zzCompute], rfl, by simp [l2zzCompute], rfl,
    by simp [kellyEstimates], rfl, rfl, by simp, by simp⟩

/-- C6 counterexample: on a qualifying shared face of interpolation order
`2` while local face `0` has order `1`, the rule fetched by
estimators.cpp:228-229 (`int_rules.Get(FT->FaceGeom, 2 *
xfes->GetFaceOrder(0))`) has degree `2 < 4 = 2 ×` the face's own order,
refuting the claim that every shared face gets a rule of degree at least
twice its own interpolation order. -/
theorem kelly_c6_shared_order_counterexample :
    attrExcludedShared c6cex 0 = false
  ∧ 2 * c6cex.faceOrder 0 ≤ sharedRuleDeg c6cex 0
  ∧ ¬ (2 * c6cex.sFaceOrder 0 ≤ sharedRuleDeg c6cex 0) := by
  decide

/-- C6 amended: a local face's rule has degree at least `2 ×` that face's
own interpolation order (estimators.cpp:104-105); a shared face's rule is
requested at degree `2 ×` the order of LOCAL face `0` (estimators.cpp:229)
— locally resident metadata only, as witnessed by its invariance under any
change of the process data that preserves `sFaceGeom sf`, `faceOrder 0`
and the quadrature table — and is therefore only guaranteed to reach `2 ×`
face `0`'s order, not `2 ×` the shared face's own order. -/
theorem kelly_c6_quadrature_order_amended {R : Type} (m m2 : KellyProc R) (f sf : Nat)
    (hruleL : 2 * m.faceOrder f ≤ m.ruleDeg (m.faceGeom f) (2 * m.faceOrder f))
    (hruleS : 2 * m.faceOrder 0 ≤ m.ruleDeg (m.sFaceGeom sf) (2 * m.faceOrder 0))
    (hg : m.sFaceGeom sf = m2.sFaceGeom sf)
    (ho : m.faceOrder 0 = m2.faceOrder 0)
    (hr : m.ruleDeg = m2.ruleDeg) :
    2 * m.faceOrder f ≤ localRuleDeg m f
  ∧ sharedRuleDeg m sf = m.ruleDeg (m.sFaceGeom sf) (2 * m.faceOrder 0)
  ∧ 2 * m.faceOrder 0 ≤ sharedRuleDeg m sf
  ∧ sharedRuleDeg m sf = sharedRuleDeg m2 sf := by
  refine ⟨hruleL, rfl, hruleS, ?_⟩
  unfold sharedRuleDeg
  rw [hr, hg, ho]

/-- C6 amended witness: the amended statement applied to the concrete
process data. -/
theorem kelly_c6_quadrature_order_amended_witness :
    2 * c6cex.faceOrder 0 ≤ c6cex.ruleDeg (c6cex.faceGeom 0) (2 * c6cex.faceOrder 0)
  ∧ 2 * c6cex.faceOrder 0 ≤ c6cex.ruleDeg (c6cex.sFaceGeom 0) (2 * c6cex.faceOrder 0)
  ∧ (2 * c6cex.faceOrder 0 ≤ localRuleDeg c6cex 0
    ∧ sharedRuleDeg c6cex 0 = c6cex.ruleDeg (c6cex.sFaceGeom 0) (2 * c6cex.faceOrder 0)
    ∧ 2 * c6cex.faceOrder 0 ≤ sharedRuleDeg c6cex 0
    ∧ sharedRuleDeg c6cex 0 = sharedRuleDeg c6cex 0) :=
  ⟨by decide, by decide,
    kelly_c6_quadrature_order_amended c6cex c6cex 0 0 (by decide) (by decide) rfl rfl rfl⟩

/-- Every face passing the local selection guard has a second adjacent
element (`Elem2No >= 0`): both disjuncts of the guard require it. -/
theorem kellySelected_elem2_nonneg {R : Type} (m : KellyProc R) (f : Nat)
    (h : kellyLocalFaceSelected m f = true) : 0 ≤ m.elem2No f := by
  simp only [kellyLocalFaceSelected, Bool.and_eq_true, Bool.or_eq_true,
    decide_eq_true_eq] at h
  rcases h.2 with ⟨h1, h2, h3⟩ | ⟨h1, h2⟩
  · exact h2
  · exact h1

/-- C3: a qualifying local face adds its scalar contribution
`jump_integral` to the running sums of BOTH adjacent elements
(estimators.cpp:208-209) and to no other element; a qualifying shared face
adds the analogous scalar contribution to the locally owned adjacent
element `FT->Elem1No` only and leaves every other (in particular any remote)
entry unchanged (estimators.cpp:306-309). -/
theorem kelly_c3_face_credit {R : Type} [CommRing R] (m : KellyProc R) (est : Nat → R)
    (f sf e : Nat)
    (hq : (kellyLocalFaceSelected m f && !(attrExcludedLocal m f)) = true)
    (hne : (m.elem1No f : Int) ≠ m.elem2No f)
    (hsq : attrExcludedShared m sf = false)
    (he1 : e ≠ m.elem1No f) (he2 : (e : Int) ≠ m.elem2No f) (he3 : e ≠ m.sElem1No sf) :
    localFaceStep m est f (m.elem1No f) = est (m.elem1No f) + localJumpIntegral m f
  ∧ localFaceStep m est f (m.elem2No f).toNat
      = est (m.elem2No f).toNat + localJumpIntegral m f
  ∧ localFaceStep m est f e = est e
  ∧ sharedFaceStep m est sf (m.sElem1No sf) = est (m.sElem1No sf) + sharedJumpIntegral m sf
  ∧ sharedFaceStep m est sf e = est e := by
  have hsel : kellyLocalFaceSelected m f = true := ((Bool.and_eq_true _ _).mp hq).1
  have h2 : 0 ≤ m.elem2No f := kellySelected_elem2_nonneg m f hsel
  have hcast : ((m.elem2No f).toNat : Int) = m.elem2No f := Int.toNat_of_nonneg h2
  have htn1 : (m.elem2No f).toNat ≠ m.elem1No f := by
    intro hEq
    apply hne
    rw [← hEq]
    exact hcast
  refine ⟨?_, ?_, ?_, ?_, ?_⟩
  · simp [localFaceStep, hq, hne]
  · simp [localFaceStep, hq, htn1, hcast]
  · simp [localFaceStep, hq, he1, he2]
  · simp [sharedFaceStep, hsq]
  · simp [sharedFaceStep, hsq, he3]

/-- C3 witness: the credit statement applied to the concrete two-element
mesh, with running sums all zero and bystander element `5`. -/
theorem kelly_c3_face_credit_witness :
    ((kellyLocalFaceSelected c3wm 0 && !(attrExcludedLocal c3wm 0)) = true)
  ∧ ((c3wm.elem1No 0 : Int) ≠ c3wm.elem2No 0)
  ∧ (attrExcludedShared c3wm 0 = false)
  ∧ ((5 : Nat) ≠ c3wm.elem1No 0)
  ∧ (((5 : Nat) : Int) ≠ c3wm.elem2No 0)
  ∧ ((5 : Nat) ≠ c3wm.sElem1No 0)
  ∧ (localFaceStep c3wm (fun _ => 0) 0 (c3wm.elem1No 0)
        = (fun _ : Nat => (0 : ℤ)) (c3wm.elem1No 0) + localJumpIntegral c3wm 0
    ∧ localFaceStep c3wm (fun _ => 0) 0 (c3wm.elem2No 0).toNat
        = (fun _ : Nat => (0 : ℤ)) (c3wm.elem2No 0).toNat + localJumpIntegral c3wm 0
    ∧ localFaceStep c3wm (fun _ => 0) 0 5 = (fun _ : Nat => (0 : ℤ)) 5
    ∧ sharedFaceStep c3wm (fun _ => 0) 0 (c3wm.sElem1No 0)
        = (fun _ : Nat => (0 : ℤ)) (c3wm.sElem1No 0) + sharedJumpIntegral c3wm 0
    ∧ sharedFaceStep c3wm (fun _ => 0) 0 5 = (fun _ : Nat => (0 : ℤ)) 5) :=
  ⟨by decide, by decide, by decide, by decide, by decide, by decide,
    kelly_c3_face_credit c3wm (fun _ => 0) 0 0 5 (by decide) (by decide) (by decide)
      (by decide) (by decide) (by decide)⟩

/-- Folding the flux-recovery step over any element list keeps a flux dof
at zero as long as every element of the list is either skipped by the
attribute filter or does not carry that dof. -/
theorem fluxFold_zero {R : Type} [CommRing R] (m : KellyProc R) (d : Nat) :
    ∀ (l : List Nat) (init : Nat → R), init d = 0 →
      (∀ x ∈ l,
          ((!m.attrFilter.isEmpty) && !(m.attrFilter.contains (m.attrElem x))) = true
            ∨ (m.fdofs x).contains d = false) →
      (l.foldl (fluxStep m) init) d = 0 := by
  intro l
  induction l with
  | nil =>
    intro init h0 _
    simpa using h0
  | cons x xs ih =>
    intro init h0 hx
    have hstep : (fluxStep m init x) d = 0 := by
      cases hB : ((!m.attrFilter.isEmpty) && !(m.attrFilter.contains (m.attrElem x))) with
      | true =>
        simp only [fluxStep, hB]
        simpa using h0
      | false =>
        rcases hx x (List.mem_cons_self x xs) with h | h
        · rw [hB] at h
          cases h
        · have h2 : d ∉ m.fdofs x := by simpa using h
          simp only [fluxStep, hB]
          simp [h2, h0]
    simpa using ih (fluxStep m init x) hstep (fun y hy => hx y (List.mem_cons_of_mem x hy))

/-- C7: with a non-empty attribute filter, an element whose attribute is
excluded is skipped by the flux-recovery loop (estimators.cpp:82-85), so
each of its flux dofs — touched by no other element, the flux space being
discontinuous — stays at the field's zero initialization
(estimators.cpp:75); and a local or shared face with either adjacent
attribute excluded is skipped by its loop (estimators.cpp:122-127 /
221-226), leaving every element's running error sum unchanged. -/
theorem kelly_c7_attribute_filter {R : Type} [CommRing R] (m : KellyProc R) (est : Nat → R)
    (e d f sf : Nat)
    (hfilter : m.attrFilter.isEmpty = false)
    (hexcl : m.attrFilter.contains (m.attrElem e) = false)
    (hown : ((List.range m.ne).all
        (fun x => decide (x = e) || !((m.fdofs x).contains d))) = true)
    (hfL : attrExcludedLocal m f = true)
    (hfS : attrExcludedShared m sf = true) :
    fluxRecovery m d = 0
  ∧ localFaceStep m est f = est
  ∧ sharedFaceStep m est sf = est := by
  refine ⟨?_, ?_, ?_⟩
  · apply fluxFold_zero m d (List.range m.ne) (fun _ => 0) rfl
    intro x hx
    by_cases hxe : x = e
    · left
      subst hxe
      have hx3 : m.attrElem x ∉ m.attrFilter := by simpa using hexcl
      simp [hfilter, hx3]
    · right
      have hx2 := List.all_eq_true.mp hown x hx
      simp [hxe] at hx2
      simpa using hx2
  · simp [localFaceStep, hfL]
  · simp [sharedFaceStep, hfS]

/-- C7 witness: the filtering statement applied to the concrete filtered
mesh, at excluded element `0`, its flux dof `0`, face `0` and shared face
`0`. -/
theorem kelly_c7_attribute_filter_witness :
    c7wm.attrFilter.isEmpty = false
  ∧ c7wm.attrFilter.contains (c7wm.attrElem 0) = false
  ∧ ((List.range c7wm.ne).all
        (fun x => decide (x = 0) || !((c7wm.fdofs x).contains 0))) = true
  ∧ attrExcludedLocal c7wm 0 = true
  ∧ attrExcludedShared c7wm 0 = true
  ∧ (fluxRecovery c7wm 0 = 0
    ∧ localFaceStep c7wm (fun _ => 0) 0 = (fun _ : Nat => (0 : ℤ))
    ∧ sharedFaceStep c7wm (fun _ => 0) 0 = (fun _ : Nat => (0 : ℤ))) :=
  ⟨by decide, by decide, by decide, by decide, by decide,
    kelly_c7_attribute_filter c7wm (fun _ => 0) 0 0 0 0 (by decide) (by decide) (by decide)
      (by decide) (by decide)⟩

/-- C8 counterexample: calling the Kelly estimator with `vdim = 2` on a
flux space built for mesh sequence `0` while the mesh is at sequence `1`
fails on the scalar-only check, but the flux space HAS been mutated
(updated to sequence `1`) before that check, because
`flux_space->Update(false)` (estimators.cpp:64) precedes the
`MFEM_ASSERT` (estimators.cpp:67). -/
theorem c8_kelly_fluxspace_update_counterexample :
    (kellyComputeFull { constKellyProc ℝ with seq := 1 } 2 { seq := 0 } 0).2
        = Except.error ("Estimation for vector-valued problems not implemented yet.")
  ∧ (kellyComputeFull { constKellyProc ℝ with seq := 1 } 2 { seq := 0 } 0).1
        ≠ ({ seq := 0 } : FluxSpaceState) := by
  refine ⟨rfl, ?_⟩
  simp [kellyComputeFull, fesUpdate, constKellyProc]

/-- C8 amended: `LpErrorEstimator::ComputeEstimates` with neither
coefficient set fails on `MFEM_VERIFY` before resizing or writing the
error-estimate vector (estimators.cpp:332-335), and
`KellyErrorEstimator::ComputeEstimates` with a vector-valued (`vdim ≠ 1`)
solution fails on the scalar-only check before mutating any estimator
state (error vector, cached sequence, total error) — but only after
`flux_space->Update(false)` has already brought the flux space up to the
mesh's current sequence. -/
theorem c8_failfast_amended {C V : Type} (m : KellyProc ℝ) (vdim : Nat)
    (fs : FluxSpaceState) (peers : ℝ) (coef : Option C) (vcoef : Option V)
    (meshSeq numEl : Nat) (fillS fillV : Nat → ℝ) (old : EstState ℝ)
    (hv : vdim ≠ 1) (hc : coef = none) (hvc : vcoef = none) :
    lpComputeE coef vcoef meshSeq numEl fillS fillV old
        = Except.error ("LpErrorEstimator has no coefficient!  Call SetCoef first.")
  ∧ (kellyComputeFull m vdim fs peers).2
        = Except.error ("Estimation for vector-valued problems not implemented yet.")
  ∧ (kellyComputeFull m vdim fs peers).1 = fesUpdate fs m.seq := by
  subst hc hvc
  refine ⟨rfl, ?_, ?_⟩ <;> simp [kellyComputeFull, hv]

/-- C8 amended witness: the fail-fast statement applied at `vdim = 2`,
both coefficients absent and a stale flux space. -/
theorem c8_failfast_amended_witness :
    ((2 : Nat) ≠ 1)
  ∧ ((none : Option Unit) = none)
  ∧ ((none : Option Unit) = none)
  ∧ (lpComputeE (none : Option Unit) (none : Option Unit) 0 0 (fun _ => (0 : ℝ))
        (fun _ => (0 : ℝ)) { errorEstimates := [], currentSequence := 0, totalError := 0 }
        = Except.error ("LpErrorEstimator has no coefficient!  Call SetCoef first.")
    ∧ (kellyComputeFull (constKellyProc ℝ) 2 { seq := 5 } 0).2
        = Except.error ("Estimation for vector-valued problems not implemented yet.")
    ∧ (kellyComputeFull (constKellyProc ℝ) 2 { seq := 5 } 0).1
        = fesUpdate { seq := 5 } (constKellyProc ℝ).seq) :=
  ⟨by decide, rfl, rfl,
    @c8_failfast_amended Unit Unit (constKellyProc ℝ) 2 { seq := 5 } 0 none none 0 0
      (fun _ => 0) (fun _ => 0) { errorEstimates := [], currentSequence := 0, totalError := 0 }
      (by decide) rfl rfl⟩
